import Mathlib

/-!
Shallow embedding of `meta/lib/oeqa/selftest/cases/clang.py`: the two
orchestration workflows of class `LLVMClangLLDNativeTests`
(`test_native_llvm_clang_lld_lit_suites` and
`test_target_llvm_clang_lld_builds`) together with their helper steps
(`run_native_check_task`, `run_target_build`) and the QEMU/NFS resource
scope opened by `contextlib.ExitStack`.

The external world is an `Env`: which `bitbake` invocations succeed, the
wall clock (successive `time.time()` readings, as rationals), the exit
status and output of each remote command issued over the QEMU session, and
the configuration values (`TMPDIR`, server ip, NFS ports).  A run threads a
`St` carrying the next clock reading index, the next remote command index
and the chronological list of observable events (log lines, bitbake
invocations, remote commands, resource acquisition/release).  Failure paths
return `Except.error` (mirroring the raised `AssertionError` / `Exception`)
while still carrying the state, so the trace up to the failure is visible.
-/

/-- Which toolchain component a remote command concerns. -/
inductive Comp where
  | lld
  | llvm
  | clang
deriving DecidableEq, Repr

/-- Call-site label of a remote (`qemu.run`) command: the reachability check,
the mount-point creation, the mount itself, a per-component `llvm-lit` run or
a per-component result-file copy. -/
inductive RCmd where
  | uname
  | mkdirMount
  | mount
  | lit (c : Comp)
  | cp (c : Comp)
deriving DecidableEq, Repr

/-- One observable event of a run. -/
inductive Event where
  | info (msg : String)
  | error (msg : String)
  | bitbakeCall (cmd : String)
  | remoteCmd (lbl : RCmd) (cmd : String) (status : Int) (timeout : Option Nat)
  | acquireQemu
  | acquireNfs
  | releaseQemu
  | releaseNfs
deriving DecidableEq, Repr

/-- A raised Python failure: `AssertionError` or a plain `Exception`, with
its message. -/
inductive Failure where
  | assertionError (msg : String)
  | exception (msg : String)
deriving DecidableEq, Repr

/-- Run state: next clock reading index, next remote command index, events so far. -/
structure St where
  clockIdx : Nat
  cmdIdx : Nat
  events : List Event
deriving Repr

/-- The state a test method starts from. -/
def initSt : St := ⟨0, 0, []⟩

/-- The external world a run unfolds against. -/
structure Env where
  /-- Does `bitbake cmd` succeed? -/
  bitbakeOk : String → Bool
  /-- The text of the exception a failing `bitbake cmd` raises. -/
  bitbakeErr : String → String
  /-- The i-th `time.time()` reading of the run. -/
  clock : Nat → ℚ
  /-- `(exit status, output)` of the n-th remote command issued. -/
  remote : Nat → Int × String
  /-- `get_bb_var("TMPDIR")`. -/
  tmpdir : String
  /-- `qemu.server_ip`. -/
  serverIp : String
  /-- Does `runqemu` produce a booted instance? -/
  qemuLaunchOk : Bool
  /-- Does `unfs_server` start? -/
  unfsOk : Bool
  /-- NFS data port returned by `unfs_server`. -/
  nfsport : Nat
  /-- NFS mount port returned by `unfs_server`. -/
  mountport : Nat

/-- Append one event. -/
def emit (s : St) (e : Event) : St :=
  { s with events := s.events ++ [e] }

/-- One `time.time()` call. -/
def readClock (env : Env) (s : St) : ℚ × St :=
  (env.clock s.clockIdx, { s with clockIdx := s.clockIdx + 1 })

/-- Python `int()` on a rational: truncation toward zero. -/
def pyInt (q : ℚ) : Int :=
  if 0 ≤ q then ⌊q⌋ else ⌈q⌉

/-- One `qemu.run(cmd, timeout)` call: records the command with its label,
exit status and timeout, returns `(status, output)`. -/
def qemuRun (env : Env) (lbl : RCmd) (cmd : String) (tmo : Option Nat) (s : St) :
    (Int × String) × St :=
  (env.remote s.cmdIdx,
   { s with cmdIdx := s.cmdIdx + 1,
            events := s.events ++ [Event.remoteCmd lbl cmd (env.remote s.cmdIdx).1 tmo] })

/-- The bitbake command string `f"{recipe} -c {task}"`. -/
def bbCheckCmd (recipe task : String) : String := s!"{recipe} -c {task}"

/-- Log line `Running bitbake %s -c %s`. -/
def checkRunMsg (recipe task : String) : String := s!"Running bitbake {recipe} -c {task}"

/-- Log line `bitbake %s -c %s FAILED: %s`. -/
def checkErrMsg (recipe task err : String) : String :=
  s!"bitbake {recipe} -c {task} FAILED: {err}"

/-- Log line `%s -c %s → %s (%d seconds)`. -/
def checkStatusMsg (recipe task status : String) (d : Int) : String :=
  s!"{recipe} -c {task} → {status} ({d} seconds)"

/-- The `AssertionError` message of a failing check task. -/
def checkFailMsg (recipe task : String) : String :=
  s!"{recipe} -c {task} failed — see log above"

/-- Log line `Running bitbake %s`. -/
def buildRunMsg (recipe : String) : String := s!"Running bitbake {recipe}"

/-- Log line `bitbake %s FAILED: %s`. -/
def buildErrMsg (recipe err : String) : String := s!"bitbake {recipe} FAILED: {err}"

/-- Log line `%s → %s (%d seconds)`. -/
def buildStatusMsg (recipe status : String) (d : Int) : String :=
  s!"{recipe} → {status} ({d} seconds)"

/-- The `AssertionError` message of a failing full build. -/
def buildFailMsg (recipe : String) : String :=
  s!"{recipe} build failed — see log above"

/-- `run_native_check_task(self, recipe, task)`: run `bitbake recipe -c task`,
log start, log a failure with its cause, always compute and log the elapsed
duration in the `finally` block, then raise `AssertionError` on failure or
return the duration on success. -/
def run_native_check_task (env : Env) (recipe task : String) (s : St) :
    Except Failure Int × St :=
  let s := emit s (Event.info (checkRunMsg recipe task))
  let r0 := readClock env s
  let start_time := r0.1
  let s := r0.2
  let cmd := bbCheckCmd recipe task
  let s := emit s (Event.bitbakeCall cmd)
  let passed := env.bitbakeOk cmd
  let s := if passed then s
           else emit s (Event.error (checkErrMsg recipe task (env.bitbakeErr cmd)))
  let r1 := readClock env s
  let s := r1.2
  let duration := pyInt (r1.1 - start_time)
  let status := if passed then "PASSED" else "FAILED"
  let s := emit s (Event.info (checkStatusMsg recipe task status duration))
  if passed then (Except.ok duration, s)
  else (Except.error (Failure.assertionError (checkFailMsg recipe task)), s)

/-- `run_target_build(self, recipe)`: run a full `bitbake recipe`, with the
same timing, logging and failure shape as `run_native_check_task`. -/
def run_target_build (env : Env) (recipe : String) (s : St) :
    Except Failure Int × St :=
  let s := emit s (Event.info (buildRunMsg recipe))
  let r0 := readClock env s
  let start_time := r0.1
  let s := r0.2
  let s := emit s (Event.bitbakeCall recipe)
  let passed := env.bitbakeOk recipe
  let s := if passed then s
           else emit s (Event.error (buildErrMsg recipe (env.bitbakeErr recipe)))
  let r1 := readClock env s
  let s := r1.2
  let duration := pyInt (r1.1 - start_time)
  let status := if passed then "PASSED" else "FAILED"
  let s := emit s (Event.info (buildStatusMsg recipe status duration))
  if passed then (Except.ok duration, s)
  else (Except.error (Failure.assertionError (buildFailMsg recipe)), s)

/-- The separator log line, `"=" * 70`. -/
def sep70 : String := String.mk (List.replicate 70 '=')

/-- The durations the native workflow logs in its summary: the three
per-component durations and the independently measured total. -/
structure NativeOutcome where
  llvm : Int
  clang : Int
  lld : Int
  total : Int
deriving DecidableEq, Repr

/-- `test_native_llvm_clang_lld_lit_suites`: three sequential native check
tasks, then a summary of each duration and of an independently measured
total.  The successful value collects the four numbers the summary logs. -/
def test_native_llvm_clang_lld_lit_suites (env : Env) (s : St) :
    Except Failure NativeOutcome × St :=
  let s := emit s (Event.info sep70)
  let s := emit s (Event.info "STARTING LLVM + CLANG + LLD NATIVE LIT TEST SUITES")
  let s := emit s (Event.info sep70)
  let r0 := readClock env s
  let total_start := r0.1
  match run_native_check_task env "llvm-native" "check_llvm" r0.2 with
  | (Except.error f, s) => (Except.error f, s)
  | (Except.ok llvm_duration, s) =>
  match run_native_check_task env "clang-native" "check_clang" s with
  | (Except.error f, s) => (Except.error f, s)
  | (Except.ok clang_duration, s) =>
  match run_native_check_task env "lld-native" "check_lld" s with
  | (Except.error f, s) => (Except.error f, s)
  | (Except.ok lld_duration, s) =>
    let r1 := readClock env s
    let total_duration := pyInt (r1.1 - total_start)
    let s := r1.2
    let s := emit s (Event.info sep70)
    let s := emit s (Event.info "ALL LIT TEST SUITES COMPLETED SUCCESSFULLY")
    let s := emit s (Event.info s!"  llvm-native  -c check_llvm  : {llvm_duration} s")
    let s := emit s (Event.info s!"  clang-native -c check_clang : {clang_duration} s")
    let s := emit s (Event.info s!"  lld-native   -c check_lld   : {lld_duration} s")
    let s := emit s (Event.info s!"  TOTAL EXECUTION TIME        : {total_duration} s")
    let s := emit s (Event.info sep70)
    (Except.ok ⟨llvm_duration, clang_duration, lld_duration, total_duration⟩, s)

/-- Host-side build directory of a component, `f"{tmpdir}/work/x86-64-v3-oe-linux/<comp>/21.1.4/build"`. -/
def build_dir (tmpdir comp : String) : String :=
  s!"{tmpdir}/work/x86-64-v3-oe-linux/{comp}/21.1.4/build"

/-- Guest-side result file, `f"/tmp/<comp>-target-results.json"`. -/
def guest_result (comp : String) : String := s!"/tmp/{comp}-target-results.json"

/-- Host-side result file, `f"{build_dir}/<comp>-target-results.log"`. -/
def host_result (tmpdir comp : String) : String :=
  build_dir tmpdir comp ++ "/" ++ comp ++ "-target-results.log"

/-- The `bin/llvm-lit` path under a component's build directory. -/
def lit_bin (tmpdir comp : String) : String :=
  build_dir tmpdir comp ++ "/bin/llvm-lit"

/-- The `test` directory under a component's build directory. -/
def test_dir (tmpdir comp : String) : String :=
  build_dir tmpdir comp ++ "/test"

/-- The `mkdir -p "{tmpdir}"` command creating the mount point. -/
def mkdirCmd (tmpdir : String) : String := s!"mkdir -p \"{tmpdir}\""

/-- The NFS mount command, parameterized by the two ports, the server ip and
the shared directory. -/
def mountCmd (nfsport mountport : Nat) (serverIp tmpdir : String) : String :=
  s!"mount -o noac,nfsvers=3,port={nfsport},udp,mountport={mountport} \"{serverIp}:{tmpdir}\" \"{tmpdir}\""

/-- Python `repr` of the captured output, as interpolated into the mount
failure message. -/
def pyRepr (out : String) : String := "\x27" ++ out ++ "\x27"

/-- The `Exception` message of a failing mount, including the captured output. -/
def mountFailMsg (out : String) : String :=
  s!"Failed to setup NFS mount on target ({pyRepr out})"

/-- The `llvm-lit` invocation for lld (verbose, COFF/MachO/MinGW filtered out, `-j1`). -/
def litCmdLld (tmpdir : String) : String :=
  "cd " ++ build_dir tmpdir "lld" ++
    "/bin && ./llvm-lit -v --filter-out \x27COFF|MachO|MinGW\x27 -j1 ../test -o " ++
    guest_result "lld"

/-- The `llvm-lit` invocation for llvm (COFF/MachO/MinGW filtered out, `-j1`). -/
def litCmdLlvm (tmpdir : String) : String :=
  "cd " ++ build_dir tmpdir "llvm" ++
    "/bin && ./llvm-lit --filter-out \x27COFF|MachO|MinGW\x27 -j1 ../test -o " ++
    guest_result "llvm"

/-- The `llvm-lit` invocation for clang (`-j2`, no filter). -/
def litCmdClang (tmpdir : String) : String :=
  "cd " ++ build_dir tmpdir "clang" ++ "/bin && ./llvm-lit -j2 ../test -o " ++
    guest_result "clang"

/-- The per-component result copy command `cp <guest> <host>`. -/
def cpCmd (tmpdir comp : String) : String :=
  "cp " ++ guest_result comp ++ " " ++ host_result tmpdir comp

/-- Log line `  LIT BIN  : %s`. -/
def litBinMsg (b : String) : String := s!"  LIT BIN  : {b}"

/-- Log line `  TESTDIR  : %s`. -/
def testDirMsg (t : String) : String := s!"  TESTDIR  : {t}"

/-- Log line `  LOGFILE  : %s`. -/
def logFileMsg (g : String) : String := s!"  LOGFILE  : {g}"

/-- The body the target workflow runs inside the open QEMU/NFS scope
(clang.py lines 114-200): the `uname` reachability check, mount-point
creation, the NFS mount, then for each of lld, llvm and clang an `llvm-lit`
run on the target followed by a copy of the result file back to the host.
Each exit status gates the next command. -/
def targetScopeBody (env : Env) (s : St) : Except Failure Unit × St :=
  let tmpdir := env.tmpdir
  let q1 := qemuRun env RCmd.uname "uname" none s
  if q1.1.1 ≠ 0 then
    (Except.error (Failure.assertionError "QEMU SSH check failed"), q1.2)
  else
  let q2 := qemuRun env RCmd.mkdirMount (mkdirCmd tmpdir) none q1.2
  if q2.1.1 ≠ 0 then
    (Except.error (Failure.exception "Failed to setup NFS mount directory on target"), q2.2)
  else
  let q3 := qemuRun env RCmd.mount (mountCmd env.nfsport env.mountport env.serverIp tmpdir) none q2.2
  if q3.1.1 ≠ 0 then
    (Except.error (Failure.exception (mountFailMsg q3.1.2)), q3.2)
  else
  let s := emit q3.2 (Event.info "Successfully mounted")
  let s := emit s (Event.info "Running llvm-lit directly on target")
  let s := emit s (Event.info (litBinMsg (lit_bin tmpdir "lld")))
  let s := emit s (Event.info (testDirMsg (test_dir tmpdir "lld")))
  let s := emit s (Event.info (logFileMsg (guest_result "lld")))
  let q4 := qemuRun env (RCmd.lit Comp.lld) (litCmdLld tmpdir) none s
  if q4.1.1 ≠ 0 then
    let s := emit q4.2 (Event.error "llvm-lit tests FAILED on target for lld")
    let s := emit s (Event.error q4.1.2)
    (Except.error (Failure.assertionError "llvm-lit failed on target for lld — see log above"), s)
  else
  let q5 := qemuRun env (RCmd.cp Comp.lld) (cpCmd tmpdir "lld") none q4.2
  if q5.1.1 ≠ 0 then
    (Except.error (Failure.assertionError "Failed to copy LLD lit results back to host"), q5.2)
  else
  let s := emit q5.2 (Event.info (litBinMsg (lit_bin tmpdir "llvm")))
  let s := emit s (Event.info (testDirMsg (test_dir tmpdir "llvm")))
  let s := emit s (Event.info (logFileMsg (guest_result "llvm")))
  let q6 := qemuRun env (RCmd.lit Comp.llvm) (litCmdLlvm tmpdir) none s
  if q6.1.1 ≠ 0 then
    let s := emit q6.2 (Event.error "llvm-lit tests FAILED on target for llvm")
    let s := emit s (Event.error q6.1.2)
    (Except.error (Failure.assertionError "llvm-lit failed on target for llvm — see log above"), s)
  else
  let q7 := qemuRun env (RCmd.cp Comp.llvm) (cpCmd tmpdir "llvm") none q6.2
  if q7.1.1 ≠ 0 then
    (Except.error (Failure.assertionError "Failed to copy llvm lit results back to host"), q7.2)
  else
  let s := emit q7.2 (Event.info (litBinMsg (lit_bin tmpdir "clang")))
  let s := emit s (Event.info (testDirMsg (test_dir tmpdir "clang")))
  let s := emit s (Event.info (logFileMsg (guest_result "clang")))
  let q8 := qemuRun env (RCmd.lit Comp.clang) (litCmdClang tmpdir) (some 1000) s
  if q8.1.1 ≠ 0 then
    let s := emit q8.2 (Event.error "llvm-lit tests FAILED on target for clang")
    let s := emit s (Event.error q8.1.2)
    (Except.error (Failure.assertionError "llvm-lit failed on target for clang — see log above"), s)
  else
  let q9 := qemuRun env (RCmd.cp Comp.clang) (cpCmd tmpdir "clang") none q8.2
  if q9.1.1 ≠ 0 then
    (Except.error (Failure.assertionError "Failed to copy LLVM lit results back to host"), q9.2)
  else
  let s := emit q9.2 (Event.info "llvm-lit tests completed successfully on target")
  let s := emit s (Event.info q8.1.2)
  (Except.ok (), s)

/-- Modelled from the spec: the `ResourceScope` that clang.py opens with
`contextlib.ExitStack` (lines 109-112).  The context managers themselves,
`runqemu` and `unfs_server`, live in `meta/lib/oeqa/utils`, outside the
staged sources, and `ExitStack` is the Python standard library; the spec
describes the scope as acquiring the VM then the NFS export, and releasing
whatever was acquired in reverse order on every exit path (release raises
nothing).  Acquisition failures surface as plain exceptions. -/
def resourceScope (env : Env) (s : St) : Except Failure Unit × St :=
  if env.qemuLaunchOk = false then
    (Except.error (Failure.exception "runqemu failed"), s)
  else
    let s1 := emit s Event.acquireQemu
    if env.unfsOk = false then
      (Except.error (Failure.exception "unfs_server failed"), emit s1 Event.releaseQemu)
    else
      let s2 := emit s1 Event.acquireNfs
      let r := targetScopeBody env s2
      (r.1, emit (emit r.2 Event.releaseNfs) Event.releaseQemu)

/-- The durations the target workflow logs in its build summary. -/
structure TargetOutcome where
  llvm : Int
  clang : Int
  lld : Int
  cim : Int
  total : Int
deriving DecidableEq, Repr

/-- `test_target_llvm_clang_lld_builds`: four sequential full builds with a
summary, then the QEMU/NFS resource scope running the remote test phase.
The successful value collects the five numbers the build summary logs. -/
def test_target_llvm_clang_lld_builds (env : Env) (s : St) :
    Except Failure TargetOutcome × St :=
  let s := emit s (Event.info sep70)
  let s := emit s (Event.info "STARTING TARGET LLVM/CLANG/LLD BUILDS")
  let s := emit s (Event.info sep70)
  let r0 := readClock env s
  let total_start := r0.1
  match run_target_build env "llvm" r0.2 with
  | (Except.error f, s) => (Except.error f, s)
  | (Except.ok llvm_duration, s) =>
  match run_target_build env "clang" s with
  | (Except.error f, s) => (Except.error f, s)
  | (Except.ok clang_duration, s) =>
  match run_target_build env "lld" s with
  | (Except.error f, s) => (Except.error f, s)
  | (Except.ok lld_duration, s) =>
  match run_target_build env "core-image-minimal" s with
  | (Except.error f, s) => (Except.error f, s)
  | (Except.ok cim_duration, s) =>
    let r1 := readClock env s
    let total_duration := pyInt (r1.1 - total_start)
    let s := r1.2
    let s := emit s (Event.info sep70)
    let s := emit s (Event.info "ALL TARGET BUILDS COMPLETED SUCCESSFULLY")
    let s := emit s (Event.info s!"  llvm  build : {llvm_duration} s")
    let s := emit s (Event.info s!"  clang build : {clang_duration} s")
    let s := emit s (Event.info s!"  lld   build : {lld_duration} s")
    let s := emit s (Event.info s!"  core-image-minimal build : {cim_duration} s")
    let s := emit s (Event.info s!"  TOTAL BUILD TIME : {total_duration} s")
    let s := emit s (Event.info sep70)
    let r := resourceScope env s
    match r.1 with
    | Except.error f => (Except.error f, r.2)
    | Except.ok _ =>
      (Except.ok ⟨llvm_duration, clang_duration, lld_duration, cim_duration, total_duration⟩, r.2)

/-- The four full-build recipes of the target workflow, in order. -/
def targetRecipe : Fin 4 → String
  | 0 => "llvm"
  | 1 => "clang"
  | 2 => "lld"
  | 3 => "core-image-minimal"

/-- The three native check recipes, in order. -/
def nativeRecipe : Fin 3 → String
  | 0 => "llvm-native"
  | 1 => "clang-native"
  | 2 => "lld-native"

/-- The three native check tasks, in order. -/
def nativeTask : Fin 3 → String
  | 0 => "check_llvm"
  | 1 => "check_clang"
  | 2 => "check_lld"

/-- Is the event a remote command? -/
def isRemoteCmd : Event → Bool
  | Event.remoteCmd _ _ _ _ => true
  | _ => false

/-- Is the event a resource acquisition or release? -/
def isLifecycle : Event → Bool
  | Event.acquireQemu => true
  | Event.acquireNfs => true
  | Event.releaseQemu => true
  | Event.releaseNfs => true
  | _ => false

/-- Is the event the bitbake invocation of `cmd`? -/
def isBitbakeCall (cmd : String) : Event → Bool
  | Event.bitbakeCall c => c == cmd
  | _ => false

/-- Is the event the result-copy command of component `c`? -/
def isCpOf (c : Comp) : Event → Bool
  | Event.remoteCmd (RCmd.cp c2) _ _ _ => decide (c2 = c)
  | _ => false

/-- Is the event a test-harness (`llvm-lit`) run of component `c` that
returned exit status zero? -/
def isLitPassOf (c : Comp) : Event → Bool
  | Event.remoteCmd (RCmd.lit c2) _ st _ => decide (c2 = c) && decide (st = 0)
  | _ => false

/-- Is the event a test-harness run or result copy of component `c`? -/
def touchesComp (c : Comp) : Event → Bool
  | Event.remoteCmd (RCmd.lit c2) _ _ _ => decide (c2 = c)
  | Event.remoteCmd (RCmd.cp c2) _ _ _ => decide (c2 = c)
  | _ => false

/-- Is the event a test-harness (`llvm-lit`) run of component `c` that
returned a non-zero exit status? -/
def isLitFailOf (c : Comp) : Event → Bool
  | Event.remoteCmd (RCmd.lit c2) _ st _ => decide (c2 = c) && !(decide (st = 0))
  | _ => false

/-- The `AssertionError` message a failing on-target lit run of the given
component raises. -/
def litFailMsg : Comp → String
  | Comp.lld => "llvm-lit failed on target for lld — see log above"
  | Comp.llvm => "llvm-lit failed on target for llvm — see log above"
  | Comp.clang => "llvm-lit failed on target for clang — see log above"

/-- Evaluation of a successful `run_target_build`: the returned duration is
the truncated difference of the two clock readings that bracket the bitbake
invocation, and the trace gains the start log, the invocation and the PASSED
status line. -/
theorem run_target_build_ok (env : Env) (recipe : String) (s : St)
    (h : env.bitbakeOk recipe = true) :
    run_target_build env recipe s =
      (Except.ok (pyInt (env.clock (s.clockIdx + 1) - env.clock s.clockIdx)),
       ⟨s.clockIdx + 2, s.cmdIdx,
        s.events ++
          [Event.info (buildRunMsg recipe), Event.bitbakeCall recipe,
           Event.info (buildStatusMsg recipe "PASSED"
             (pyInt (env.clock (s.clockIdx + 1) - env.clock s.clockIdx)))]⟩) := by
  simp [run_target_build, emit, readClock, h]

/-- Evaluation of a failing `run_target_build`: the duration is still
computed from the same clock bracket and logged in the FAILED status line
(after the error log with the cause), and the step raises the
`AssertionError` naming the recipe instead of returning a duration. -/
theorem run_target_build_fail (env : Env) (recipe : String) (s : St)
    (h : env.bitbakeOk recipe = false) :
    run_target_build env recipe s =
      (Except.error (Failure.assertionError (buildFailMsg recipe)),
       ⟨s.clockIdx + 2, s.cmdIdx,
        s.events ++
          [Event.info (buildRunMsg recipe), Event.bitbakeCall recipe,
           Event.error (buildErrMsg recipe (env.bitbakeErr recipe)),
           Event.info (buildStatusMsg recipe "FAILED"
             (pyInt (env.clock (s.clockIdx + 1) - env.clock s.clockIdx)))]⟩) := by
  simp [run_target_build, emit, readClock, h]

/-- Evaluation of a successful `run_native_check_task`. -/
theorem run_native_check_task_ok (env : Env) (recipe task : String) (s : St)
    (h : env.bitbakeOk (bbCheckCmd recipe task) = true) :
    run_native_check_task env recipe task s =
      (Except.ok (pyInt (env.clock (s.clockIdx + 1) - env.clock s.clockIdx)),
       ⟨s.clockIdx + 2, s.cmdIdx,
        s.events ++
          [Event.info (checkRunMsg recipe task), Event.bitbakeCall (bbCheckCmd recipe task),
           Event.info (checkStatusMsg recipe task "PASSED"
             (pyInt (env.clock (s.clockIdx + 1) - env.clock s.clockIdx)))]⟩) := by
  simp [run_native_check_task, emit, readClock, h]

/-- Evaluation of a failing `run_native_check_task`: the duration is still
computed and logged in the FAILED status line, and the step raises the
`AssertionError` naming recipe and task. -/
theorem run_native_check_task_fail (env : Env) (recipe task : String) (s : St)
    (h : env.bitbakeOk (bbCheckCmd recipe task) = false) :
    run_native_check_task env recipe task s =
      (Except.error (Failure.assertionError (checkFailMsg recipe task)),
       ⟨s.clockIdx + 2, s.cmdIdx,
        s.events ++
          [Event.info (checkRunMsg recipe task), Event.bitbakeCall (bbCheckCmd recipe task),
           Event.error (checkErrMsg recipe task (env.bitbakeErr (bbCheckCmd recipe task))),
           Event.info (checkStatusMsg recipe task "FAILED"
             (pyInt (env.clock (s.clockIdx + 1) - env.clock s.clockIdx)))]⟩) := by
  simp [run_native_check_task, emit, readClock, h]

/-- C4: for both timed steps (`run_native_check_task` and
`run_target_build`), a failing wrapped operation still gets its elapsed time
computed and logged (the FAILED status line with the duration, after the
error log with the cause) before the `AssertionError` naming the step is
raised, and no duration is returned; a successful operation returns the
elapsed duration and raises nothing. -/
theorem C4_timed_step_duration_always_logged (env : Env) (recipe task : String) (s : St) :
    (env.bitbakeOk (bbCheckCmd recipe task) = false →
      run_native_check_task env recipe task s =
        (Except.error (Failure.assertionError (checkFailMsg recipe task)),
         ⟨s.clockIdx + 2, s.cmdIdx,
          s.events ++
            [Event.info (checkRunMsg recipe task), Event.bitbakeCall (bbCheckCmd recipe task),
             Event.error (checkErrMsg recipe task (env.bitbakeErr (bbCheckCmd recipe task))),
             Event.info (checkStatusMsg recipe task "FAILED"
               (pyInt (env.clock (s.clockIdx + 1) - env.clock s.clockIdx)))]⟩)) ∧
    (env.bitbakeOk (bbCheckCmd recipe task) = true →
      run_native_check_task env recipe task s =
        (Except.ok (pyInt (env.clock (s.clockIdx + 1) - env.clock s.clockIdx)),
         ⟨s.clockIdx + 2, s.cmdIdx,
          s.events ++
            [Event.info (checkRunMsg recipe task), Event.bitbakeCall (bbCheckCmd recipe task),
             Event.info (checkStatusMsg recipe task "PASSED"
               (pyInt (env.clock (s.clockIdx + 1) - env.clock s.clockIdx)))]⟩)) ∧
    (env.bitbakeOk recipe = false →
      run_target_build env recipe s =
        (Except.error (Failure.assertionError (buildFailMsg recipe)),
         ⟨s.clockIdx + 2, s.cmdIdx,
          s.events ++
            [Event.info (buildRunMsg recipe), Event.bitbakeCall recipe,
             Event.error (buildErrMsg recipe (env.bitbakeErr recipe)),
             Event.info (buildStatusMsg recipe "FAILED"
               (pyInt (env.clock (s.clockIdx + 1) - env.clock s.clockIdx)))]⟩)) ∧
    (env.bitbakeOk recipe = true →
      run_target_build env recipe s =
        (Except.ok (pyInt (env.clock (s.clockIdx + 1) - env.clock s.clockIdx)),
         ⟨s.clockIdx + 2, s.cmdIdx,
          s.events ++
            [Event.info (buildRunMsg recipe), Event.bitbakeCall recipe,
             Event.info (buildStatusMsg recipe "PASSED"
               (pyInt (env.clock (s.clockIdx + 1) - env.clock s.clockIdx)))]⟩)) :=
  ⟨run_native_check_task_fail env recipe task s,
   run_native_check_task_ok env recipe task s,
   run_target_build_fail env recipe s,
   run_target_build_ok env recipe s⟩

/-- C3: in the native workflow, if the first failing check step is step `k`,
the workflow raises the `AssertionError` of step `k` (whose message
determines the step: the three messages are pairwise distinct), and no
bitbake invocation of any later step ever appears in the trace. -/
theorem C3_native_first_failure_short_circuits (env : Env) (k : Fin 3)
    (hok : ∀ j : Fin 3, j < k → env.bitbakeOk (bbCheckCmd (nativeRecipe j) (nativeTask j)) = true)
    (hfail : env.bitbakeOk (bbCheckCmd (nativeRecipe k) (nativeTask k)) = false) :
    (test_native_llvm_clang_lld_lit_suites env initSt).1 =
        Except.error (Failure.assertionError (checkFailMsg (nativeRecipe k) (nativeTask k))) ∧
    (∀ j : Fin 3, checkFailMsg (nativeRecipe j) (nativeTask j) =
        checkFailMsg (nativeRecipe k) (nativeTask k) → j = k) ∧
    ∀ j : Fin 3, k < j →
      ∀ e ∈ (test_native_llvm_clang_lld_lit_suites env initSt).2.events,
        isBitbakeCall (bbCheckCmd (nativeRecipe j) (nativeTask j)) e = false := by
  fin_cases k
  · have hf : env.bitbakeOk (bbCheckCmd "llvm-native" "check_llvm") = false := hfail
    simp only [test_native_llvm_clang_lld_lit_suites, emit, readClock, initSt]
    simp only [run_native_check_task_fail _ _ _ _ hf]
    refine ⟨by rfl, ?_, ?_⟩
    · intro j hj
      fin_cases j <;> revert hj <;> decide
    · intro j hj e he
      fin_cases j <;>
        first
        | exact absurd hj (by decide)
        | (fin_cases he <;> rfl)
  · have h0 : env.bitbakeOk (bbCheckCmd "llvm-native" "check_llvm") = true :=
      hok 0 (by decide)
    have hf : env.bitbakeOk (bbCheckCmd "clang-native" "check_clang") = false := hfail
    simp only [test_native_llvm_clang_lld_lit_suites, emit, readClock, initSt]
    simp only [run_native_check_task_ok _ _ _ _ h0, run_native_check_task_fail _ _ _ _ hf]
    refine ⟨by rfl, ?_, ?_⟩
    · intro j hj
      fin_cases j <;> revert hj <;> decide
    · intro j hj e he
      fin_cases j <;>
        first
        | exact absurd hj (by decide)
        | (fin_cases he <;> rfl)
  · have h0 : env.bitbakeOk (bbCheckCmd "llvm-native" "check_llvm") = true :=
      hok 0 (by decide)
    have h1 : env.bitbakeOk (bbCheckCmd "clang-native" "check_clang") = true :=
      hok 1 (by decide)
    have hf : env.bitbakeOk (bbCheckCmd "lld-native" "check_lld") = false := hfail
    simp only [test_native_llvm_clang_lld_lit_suites, emit, readClock, initSt]
    simp only [run_native_check_task_ok _ _ _ _ h0, run_native_check_task_ok _ _ _ _ h1,
      run_native_check_task_fail _ _ _ _ hf]
    refine ⟨by rfl, ?_, ?_⟩
    · intro j hj
      fin_cases j <;> revert hj <;> decide
    · intro j hj e he
      fin_cases j <;>
        first
        | exact absurd hj (by decide)
        | (fin_cases he <;> rfl)

/-- C1: in the target workflow, if the first failing full-build step is step
`k`, the workflow raises that step's `AssertionError`, and the final trace
contains no remote command, no resource acquisition or release, and no
bitbake invocation of any later build step: the later builds and all later
phases never start. -/
theorem C1_target_build_failure_aborts_all (env : Env) (k : Fin 4)
    (hok : ∀ j : Fin 4, j < k → env.bitbakeOk (targetRecipe j) = true)
    (hfail : env.bitbakeOk (targetRecipe k) = false) :
    (test_target_llvm_clang_lld_builds env initSt).1 =
        Except.error (Failure.assertionError (buildFailMsg (targetRecipe k))) ∧
    ∀ e ∈ (test_target_llvm_clang_lld_builds env initSt).2.events,
      isRemoteCmd e = false ∧ isLifecycle e = false ∧
        ∀ j : Fin 4, k < j → isBitbakeCall (targetRecipe j) e = false := by
  fin_cases k
  · have hf : env.bitbakeOk "llvm" = false := hfail
    simp only [test_target_llvm_clang_lld_builds, emit, readClock, initSt]
    simp only [run_target_build_fail _ _ _ hf]
    refine ⟨by rfl, ?_⟩
    intro e he
    fin_cases he <;>
      exact ⟨rfl, rfl, by
        intro j hj
        fin_cases j <;> first | exact absurd hj (by decide) | rfl⟩
  · have h0 : env.bitbakeOk "llvm" = true := hok 0 (by decide)
    have hf : env.bitbakeOk "clang" = false := hfail
    simp only [test_target_llvm_clang_lld_builds, emit, readClock, initSt]
    simp only [run_target_build_ok _ _ _ h0, run_target_build_fail _ _ _ hf]
    refine ⟨by rfl, ?_⟩
    intro e he
    fin_cases he <;>
      exact ⟨rfl, rfl, by
        intro j hj
        fin_cases j <;> first | exact absurd hj (by decide) | rfl⟩
  · have h0 : env.bitbakeOk "llvm" = true := hok 0 (by decide)
    have h1 : env.bitbakeOk "clang" = true := hok 1 (by decide)
    have hf : env.bitbakeOk "lld" = false := hfail
    simp only [test_target_llvm_clang_lld_builds, emit, readClock, initSt]
    simp only [run_target_build_ok _ _ _ h0, run_target_build_ok _ _ _ h1,
      run_target_build_fail _ _ _ hf]
    refine ⟨by rfl, ?_⟩
    intro e he
    fin_cases he <;>
      exact ⟨rfl, rfl, by
        intro j hj
        fin_cases j <;> first | exact absurd hj (by decide) | rfl⟩
  · have h0 : env.bitbakeOk "llvm" = true := hok 0 (by decide)
    have h1 : env.bitbakeOk "clang" = true := hok 1 (by decide)
    have h2 : env.bitbakeOk "lld" = true := hok 2 (by decide)
    have hf : env.bitbakeOk "core-image-minimal" = false := hfail
    simp only [test_target_llvm_clang_lld_builds, emit, readClock, initSt]
    simp only [run_target_build_ok _ _ _ h0, run_target_build_ok _ _ _ h1,
      run_target_build_ok _ _ _ h2, run_target_build_fail _ _ _ hf]
    refine ⟨by rfl, ?_⟩
    intro e he
    fin_cases he <;>
      exact ⟨rfl, rfl, by
        intro j hj
        fin_cases j <;> first | exact absurd hj (by decide) | rfl⟩

/-- A fully successful external world used to instantiate theorems: every
bitbake invocation succeeds, the clock never advances, every remote command
exits zero. -/
def envBase : Env where
  bitbakeOk := fun _ => true
  bitbakeErr := fun _ => "boom"
  clock := fun _ => 0
  remote := fun _ => (0, "ok")
  tmpdir := "/srv/tmp"
  serverIp := "192.168.7.1"
  qemuLaunchOk := true
  unfsOk := true
  nfsport := 3049
  mountport := 3048

/-- A world in which exactly the `clang` full build fails. -/
def envW1 : Env := { envBase with bitbakeOk := fun c => !(c == "clang") }

/-- C1 at a concrete input: the `clang` build (step 1) fails. -/
theorem C1_target_build_failure_aborts_all_witness :
    (test_target_llvm_clang_lld_builds envW1 initSt).1 =
        Except.error (Failure.assertionError (buildFailMsg (targetRecipe 1))) ∧
    ∀ e ∈ (test_target_llvm_clang_lld_builds envW1 initSt).2.events,
      isRemoteCmd e = false ∧ isLifecycle e = false ∧
        ∀ j : Fin 4, 1 < j → isBitbakeCall (targetRecipe j) e = false :=
  C1_target_build_failure_aborts_all envW1 1 (by decide) (by decide)

/-- A world in which exactly the `clang-native` check task fails. -/
def envW3 : Env :=
  { envBase with bitbakeOk := fun c => !(c == bbCheckCmd "clang-native" "check_clang") }

/-- C3 at a concrete input: the `clang-native -c check_clang` step (step 1)
fails. -/
theorem C3_native_first_failure_short_circuits_witness :
    (test_native_llvm_clang_lld_lit_suites envW3 initSt).1 =
        Except.error (Failure.assertionError (checkFailMsg (nativeRecipe 1) (nativeTask 1))) ∧
    (∀ j : Fin 3, checkFailMsg (nativeRecipe j) (nativeTask j) =
        checkFailMsg (nativeRecipe 1) (nativeTask 1) → j = 1) ∧
    ∀ j : Fin 3, (1 : Fin 3) < j →
      ∀ e ∈ (test_native_llvm_clang_lld_lit_suites envW3 initSt).2.events,
        isBitbakeCall (bbCheckCmd (nativeRecipe j) (nativeTask j)) e = false :=
  C3_native_first_failure_short_circuits envW3 1 (by decide) (by decide)

/-- An event that is not a remote command is not a copy command of any component. -/
theorem isCpOf_eq_false_of_not_remote (c : Comp) (e : Event)
    (h : isRemoteCmd e = false) : isCpOf c e = false := by
  cases e <;> simp_all [isRemoteCmd, isCpOf]

/-- An event that is not a remote command is not a passed lit run of any component. -/
theorem isLitPassOf_eq_false_of_not_remote (c : Comp) (e : Event)
    (h : isRemoteCmd e = false) : isLitPassOf c e = false := by
  cases e <;> simp_all [isRemoteCmd, isLitPassOf]

/-- C5: if the initial reachability check (`uname`) returns a non-zero exit
status, the scope body fails with the `QEMU SSH check failed` assertion and
the only remote command in the trace delta is that `uname`: neither the
mount-point creation nor the mount command is ever issued. -/
theorem C5_reachability_failure_stops_mount (env : Env) (ci : Nat) (evs : List Event)
    (h : (env.remote 0).1 ≠ 0) :
    (targetScopeBody env ⟨ci, 0, evs⟩).1 =
        Except.error (Failure.assertionError "QEMU SSH check failed") ∧
    (targetScopeBody env ⟨ci, 0, evs⟩).2.events =
        evs ++ [Event.remoteCmd RCmd.uname "uname" (env.remote 0).1 none] := by
  simp [targetScopeBody, qemuRun, emit, h]

/-- C5 at a concrete input: the reachability check exits 1. -/
theorem C5_reachability_failure_stops_mount_witness :
    (targetScopeBody { envBase with remote := fun _ => (1, "no route") } initSt).1 =
        Except.error (Failure.assertionError "QEMU SSH check failed") ∧
    (targetScopeBody { envBase with remote := fun _ => (1, "no route") } initSt).2.events =
        [] ++ [Event.remoteCmd RCmd.uname "uname"
                (({ envBase with remote := fun _ => (1, "no route") } : Env).remote 0).1 none] :=
  C5_reachability_failure_stops_mount { envBase with remote := fun _ => (1, "no route") } 0 []
    (by decide)


/-- Scope body evaluation, case 1: the reachability check fails. -/
theorem scopeBody_eval1 (env : Env) (ci : Nat) (evs : List Event)
    (h1 : (env.remote 0).1 ≠ 0) :
    targetScopeBody env ⟨ci, 0, evs⟩ =
      (Except.error (Failure.assertionError "QEMU SSH check failed"),
       ⟨ci, 1, evs ++ [Event.remoteCmd RCmd.uname "uname" (env.remote 0).1 none]⟩) := by
  simp [targetScopeBody, qemuRun, emit, h1]

/-- Scope body evaluation, case 2: the mount-point creation fails. -/
theorem scopeBody_eval2 (env : Env) (ci : Nat) (evs : List Event)
    (h1 : (env.remote 0).1 = 0) (h2 : (env.remote 1).1 ≠ 0) :
    targetScopeBody env ⟨ci, 0, evs⟩ =
      (Except.error (Failure.exception "Failed to setup NFS mount directory on target"),
       ⟨ci, 2, evs ++
        [Event.remoteCmd RCmd.uname "uname" 0 none,
         Event.remoteCmd RCmd.mkdirMount (mkdirCmd env.tmpdir) (env.remote 1).1 none]⟩) := by
  simp [targetScopeBody, qemuRun, emit, h1, h2]

/-- Scope body evaluation, case 3: the mount command fails. -/
theorem scopeBody_eval3 (env : Env) (ci : Nat) (evs : List Event)
    (h1 : (env.remote 0).1 = 0) (h2 : (env.remote 1).1 = 0) (h3 : (env.remote 2).1 ≠ 0) :
    targetScopeBody env ⟨ci, 0, evs⟩ =
      (Except.error (Failure.exception (mountFailMsg (env.remote 2).2)),
       ⟨ci, 3, evs ++
        [Event.remoteCmd RCmd.uname "uname" 0 none,
         Event.remoteCmd RCmd.mkdirMount (mkdirCmd env.tmpdir) 0 none,
         Event.remoteCmd RCmd.mount (mountCmd env.nfsport env.mountport env.serverIp env.tmpdir)
           (env.remote 2).1 none]⟩) := by
  simp [targetScopeBody, qemuRun, emit, h1, h2, h3]

/-- Scope body evaluation, case 4: the lld lit run fails. -/
theorem scopeBody_eval4 (env : Env) (ci : Nat) (evs : List Event)
    (h1 : (env.remote 0).1 = 0) (h2 : (env.remote 1).1 = 0) (h3 : (env.remote 2).1 = 0)
    (h4 : (env.remote 3).1 ≠ 0) :
    targetScopeBody env ⟨ci, 0, evs⟩ =
      (Except.error (Failure.assertionError "llvm-lit failed on target for lld — see log above"),
       ⟨ci, 4, evs ++
        [Event.remoteCmd RCmd.uname "uname" 0 none,
         Event.remoteCmd RCmd.mkdirMount (mkdirCmd env.tmpdir) 0 none,
         Event.remoteCmd RCmd.mount (mountCmd env.nfsport env.mountport env.serverIp env.tmpdir) 0 none,
         Event.info "Successfully mounted",
         Event.info "Running llvm-lit directly on target",
         Event.info (litBinMsg (lit_bin env.tmpdir "lld")),
         Event.info (testDirMsg (test_dir env.tmpdir "lld")),
         Event.info (logFileMsg (guest_result "lld")),
         Event.remoteCmd (RCmd.lit Comp.lld) (litCmdLld env.tmpdir) (env.remote 3).1 none,
         Event.error "llvm-lit tests FAILED on target for lld",
         Event.error (env.remote 3).2]⟩) := by
  simp [targetScopeBody, qemuRun, emit, h1, h2, h3, h4]

/-- Scope body evaluation, case 5: the lld result copy fails. -/
theorem scopeBody_eval5 (env : Env) (ci : Nat) (evs : List Event)
    (h1 : (env.remote 0).1 = 0) (h2 : (env.remote 1).1 = 0) (h3 : (env.remote 2).1 = 0)
    (h4 : (env.remote 3).1 = 0) (h5 : (env.remote 4).1 ≠ 0) :
    targetScopeBody env ⟨ci, 0, evs⟩ =
      (Except.error (Failure.assertionError "Failed to copy LLD lit results back to host"),
       ⟨ci, 5, evs ++
        [Event.remoteCmd RCmd.uname "uname" 0 none,
         Event.remoteCmd RCmd.mkdirMount (mkdirCmd env.tmpdir) 0 none,
         Event.remoteCmd RCmd.mount (mountCmd env.nfsport env.mountport env.serverIp env.tmpdir) 0 none,
         Event.info "Successfully mounted",
         Event.info "Running llvm-lit directly on target",
         Event.info (litBinMsg (lit_bin env.tmpdir "lld")),
         Event.info (testDirMsg (test_dir env.tmpdir "lld")),
         Event.info (logFileMsg (guest_result "lld")),
         Event.remoteCmd (RCmd.lit Comp.lld) (litCmdLld env.tmpdir) 0 none,
         Event.remoteCmd (RCmd.cp Comp.lld) (cpCmd env.tmpdir "lld") (env.remote 4).1 none]⟩) := by
  simp [targetScopeBody, qemuRun, emit, h1, h2, h3, h4, h5]

/-- Scope body evaluation, case 6: the llvm lit run fails. -/
theorem scopeBody_eval6 (env : Env) (ci : Nat) (evs : List Event)
    (h1 : (env.remote 0).1 = 0) (h2 : (env.remote 1).1 = 0) (h3 : (env.remote 2).1 = 0)
    (h4 : (env.remote 3).1 = 0) (h5 : (env.remote 4).1 = 0) (h6 : (env.remote 5).1 ≠ 0) :
    targetScopeBody env ⟨ci, 0, evs⟩ =
      (Except.error (Failure.assertionError "llvm-lit failed on target for llvm — see log above"),
       ⟨ci, 6, evs ++
        [Event.remoteCmd RCmd.uname "uname" 0 none,
         Event.remoteCmd RCmd.mkdirMount (mkdirCmd env.tmpdir) 0 none,
         Event.remoteCmd RCmd.mount (mountCmd env.nfsport env.mountport env.serverIp env.tmpdir) 0 none,
         Event.info "Successfully mounted",
         Event.info "Running llvm-lit directly on target",
         Event.info (litBinMsg (lit_bin env.tmpdir "lld")),
         Event.info (testDirMsg (test_dir env.tmpdir "lld")),
         Event.info (logFileMsg (guest_result "lld")),
         Event.remoteCmd (RCmd.lit Comp.lld) (litCmdLld env.tmpdir) 0 none,
         Event.remoteCmd (RCmd.cp Comp.lld) (cpCmd env.tmpdir "lld") 0 none,
         Event.info (litBinMsg (lit_bin env.tmpdir "llvm")),
         Event.info (testDirMsg (test_dir env.tmpdir "llvm")),
         Event.info (logFileMsg (guest_result "llvm")),
         Event.remoteCmd (RCmd.lit Comp.llvm) (litCmdLlvm env.tmpdir) (env.remote 5).1 none,
         Event.error "llvm-lit tests FAILED on target for llvm",
         Event.error (env.remote 5).2]⟩) := by
  simp [targetScopeBody, qemuRun, emit, h1, h2, h3, h4, h5, h6]

/-- Scope body evaluation, case 7: the llvm result copy fails. -/
theorem scopeBody_eval7 (env : Env) (ci : Nat) (evs : List Event)
    (h1 : (env.remote 0).1 = 0) (h2 : (env.remote 1).1 = 0) (h3 : (env.remote 2).1 = 0)
    (h4 : (env.remote 3).1 = 0) (h5 : (env.remote 4).1 = 0) (h6 : (env.remote 5).1 = 0)
    (h7 : (env.remote 6).1 ≠ 0) :
    targetScopeBody env ⟨ci, 0, evs⟩ =
      (Except.error (Failure.assertionError "Failed to copy llvm lit results back to host"),
       ⟨ci, 7, evs ++
        [Event.remoteCmd RCmd.uname "uname" 0 none,
         Event.remoteCmd RCmd.mkdirMount (mkdirCmd env.tmpdir) 0 none,
         Event.remoteCmd RCmd.mount (mountCmd env.nfsport env.mountport env.serverIp env.tmpdir) 0 none,
         Event.info "Successfully mounted",
         Event.info "Running llvm-lit directly on target",
         Event.info (litBinMsg (lit_bin env.tmpdir "lld")),
         Event.info (testDirMsg (test_dir env.tmpdir "lld")),
         Event.info (logFileMsg (guest_result "lld")),
         Event.remoteCmd (RCmd.lit Comp.lld) (litCmdLld env.tmpdir) 0 none,
         Event.remoteCmd (RCmd.cp Comp.lld) (cpCmd env.tmpdir "lld") 0 none,
         Event.info (litBinMsg (lit_bin env.tmpdir "llvm")),
         Event.info (testDirMsg (test_dir env.tmpdir "llvm")),
         Event.info (logFileMsg (guest_result "llvm")),
         Event.remoteCmd (RCmd.lit Comp.llvm) (litCmdLlvm env.tmpdir) 0 none,
         Event.remoteCmd (RCmd.cp Comp.llvm) (cpCmd env.tmpdir "llvm") (env.remote 6).1 none]⟩) := by
  simp [targetScopeBody, qemuRun, emit, h1, h2, h3, h4, h5, h6, h7]

/-- Scope body evaluation, case 8: the clang lit run fails. -/
theorem scopeBody_eval8 (env : Env) (ci : Nat) (evs : List Event)
    (h1 : (env.remote 0).1 = 0) (h2 : (env.remote 1).1 = 0) (h3 : (env.remote 2).1 = 0)
    (h4 : (env.remote 3).1 = 0) (h5 : (env.remote 4).1 = 0) (h6 : (env.remote 5).1 = 0)
    (h7 : (env.remote 6).1 = 0) (h8 : (env.remote 7).1 ≠ 0) :
    targetScopeBody env ⟨ci, 0, evs⟩ =
      (Except.error (Failure.assertionError "llvm-lit failed on target for clang — see log above"),
       ⟨ci, 8, evs ++
        [Event.remoteCmd RCmd.uname "uname" 0 none,
         Event.remoteCmd RCmd.mkdirMount (mkdirCmd env.tmpdir) 0 none,
         Event.remoteCmd RCmd.mount (mountCmd env.nfsport env.mountport env.serverIp env.tmpdir) 0 none,
         Event.info "Successfully mounted",
         Event.info "Running llvm-lit directly on target",
         Event.info (litBinMsg (lit_bin env.tmpdir "lld")),
         Event.info (testDirMsg (test_dir env.tmpdir "lld")),
         Event.info (logFileMsg (guest_result "lld")),
         Event.remoteCmd (RCmd.lit Comp.lld) (litCmdLld env.tmpdir) 0 none,
         Event.remoteCmd (RCmd.cp Comp.lld) (cpCmd env.tmpdir "lld") 0 none,
         Event.info (litBinMsg (lit_bin env.tmpdir "llvm")),
         Event.info (testDirMsg (test_dir env.tmpdir "llvm")),
         Event.info (logFileMsg (guest_result "llvm")),
         Event.remoteCmd (RCmd.lit Comp.llvm) (litCmdLlvm env.tmpdir) 0 none,
         Event.remoteCmd (RCmd.cp Comp.llvm) (cpCmd env.tmpdir "llvm") 0 none,
         Event.info (litBinMsg (lit_bin env.tmpdir "clang")),
         Event.info (testDirMsg (test_dir env.tmpdir "clang")),
         Event.info (logFileMsg (guest_result "clang")),
         Event.remoteCmd (RCmd.lit Comp.clang) (litCmdClang env.tmpdir) (env.remote 7).1 (some 1000),
         Event.error "llvm-lit tests FAILED on target for clang",
         Event.error (env.remote 7).2]⟩) := by
  simp [targetScopeBody, qemuRun, emit, h1, h2, h3, h4, h5, h6, h7, h8]

/-- Scope body evaluation, case 9: the clang result copy fails (the raised
message says LLVM, not clang). -/
theorem scopeBody_eval9 (env : Env) (ci : Nat) (evs : List Event)
    (h1 : (env.remote 0).1 = 0) (h2 : (env.remote 1).1 = 0) (h3 : (env.remote 2).1 = 0)
    (h4 : (env.remote 3).1 = 0) (h5 : (env.remote 4).1 = 0) (h6 : (env.remote 5).1 = 0)
    (h7 : (env.remote 6).1 = 0) (h8 : (env.remote 7).1 = 0) (h9 : (env.remote 8).1 ≠ 0) :
    targetScopeBody env ⟨ci, 0, evs⟩ =
      (Except.error (Failure.assertionError "Failed to copy LLVM lit results back to host"),
       ⟨ci, 9, evs ++
        [Event.remoteCmd RCmd.uname "uname" 0 none,
         Event.remoteCmd RCmd.mkdirMount (mkdirCmd env.tmpdir) 0 none,
         Event.remoteCmd RCmd.mount (mountCmd env.nfsport env.mountport env.serverIp env.tmpdir) 0 none,
         Event.info "Successfully mounted",
         Event.info "Running llvm-lit directly on target",
         Event.info (litBinMsg (lit_bin env.tmpdir "lld")),
         Event.info (testDirMsg (test_dir env.tmpdir "lld")),
         Event.info (logFileMsg (guest_result "lld")),
         Event.remoteCmd (RCmd.lit Comp.lld) (litCmdLld env.tmpdir) 0 none,
         Event.remoteCmd (RCmd.cp Comp.lld) (cpCmd env.tmpdir "lld") 0 none,
         Event.info (litBinMsg (lit_bin env.tmpdir "llvm")),
         Event.info (testDirMsg (test_dir env.tmpdir "llvm")),
         Event.info (logFileMsg (guest_result "llvm")),
         Event.remoteCmd (RCmd.lit Comp.llvm) (litCmdLlvm env.tmpdir) 0 none,
         Event.remoteCmd (RCmd.cp Comp.llvm) (cpCmd env.tmpdir "llvm") 0 none,
         Event.info (litBinMsg (lit_bin env.tmpdir "clang")),
         Event.info (testDirMsg (test_dir env.tmpdir "clang")),
         Event.info (logFileMsg (guest_result "clang")),
         Event.remoteCmd (RCmd.lit Comp.clang) (litCmdClang env.tmpdir) 0 (some 1000),
         Event.remoteCmd (RCmd.cp Comp.clang) (cpCmd env.tmpdir "clang") (env.remote 8).1 none]⟩) := by
  simp [targetScopeBody, qemuRun, emit, h1, h2, h3, h4, h5, h6, h7, h8, h9]

/-- Scope body evaluation, case 10: every remote command exits zero. -/
theorem scopeBody_eval10 (env : Env) (ci : Nat) (evs : List Event)
    (h1 : (env.remote 0).1 = 0) (h2 : (env.remote 1).1 = 0) (h3 : (env.remote 2).1 = 0)
    (h4 : (env.remote 3).1 = 0) (h5 : (env.remote 4).1 = 0) (h6 : (env.remote 5).1 = 0)
    (h7 : (env.remote 6).1 = 0) (h8 : (env.remote 7).1 = 0) (h9 : (env.remote 8).1 = 0) :
    targetScopeBody env ⟨ci, 0, evs⟩ =
      (Except.ok (),
       ⟨ci, 9, evs ++
        [Event.remoteCmd RCmd.uname "uname" 0 none,
         Event.remoteCmd RCmd.mkdirMount (mkdirCmd env.tmpdir) 0 none,
         Event.remoteCmd RCmd.mount (mountCmd env.nfsport env.mountport env.serverIp env.tmpdir) 0 none,
         Event.info "Successfully mounted",
         Event.info "Running llvm-lit directly on target",
         Event.info (litBinMsg (lit_bin env.tmpdir "lld")),
         Event.info (testDirMsg (test_dir env.tmpdir "lld")),
         Event.info (logFileMsg (guest_result "lld")),
         Event.remoteCmd (RCmd.lit Comp.lld) (litCmdLld env.tmpdir) 0 none,
         Event.remoteCmd (RCmd.cp Comp.lld) (cpCmd env.tmpdir "lld") 0 none,
         Event.info (litBinMsg (lit_bin env.tmpdir "llvm")),
         Event.info (testDirMsg (test_dir env.tmpdir "llvm")),
         Event.info (logFileMsg (guest_result "llvm")),
         Event.remoteCmd (RCmd.lit Comp.llvm) (litCmdLlvm env.tmpdir) 0 none,
         Event.remoteCmd (RCmd.cp Comp.llvm) (cpCmd env.tmpdir "llvm") 0 none,
         Event.info (litBinMsg (lit_bin env.tmpdir "clang")),
         Event.info (testDirMsg (test_dir env.tmpdir "clang")),
         Event.info (logFileMsg (guest_result "clang")),
         Event.remoteCmd (RCmd.lit Comp.clang) (litCmdClang env.tmpdir) 0 (some 1000),
         Event.remoteCmd (RCmd.cp Comp.clang) (cpCmd env.tmpdir "clang") 0 none,
         Event.info "llvm-lit tests completed successfully on target",
         Event.info (env.remote 7).2]⟩) := by
  simp [targetScopeBody, qemuRun, emit, h1, h2, h3, h4, h5, h6, h7, h8, h9]


/-- An event that is not a remote command is not a failed lit run of any component. -/
theorem isLitFailOf_eq_false_of_not_remote (c : Comp) (e : Event)
    (h : isRemoteCmd e = false) : isLitFailOf c e = false := by
  cases e <;> simp_all [isRemoteCmd, isLitFailOf]

set_option maxHeartbeats 1600000 in
/-- C6: in the scope body (entered with no prior remote commands in the
trace), for every component: the result-copy command appears in the trace
exactly when that component's test-harness (`llvm-lit`) invocation appears
with exit status zero; and whenever the component's lit invocation appears
with a non-zero exit status, the body fails with that component's
`llvm-lit failed on target` assertion and the component's copy is never
attempted. -/
theorem C6_copy_iff_lit_passed (env : Env) (ci : Nat) (evs : List Event)
    (hpre : ∀ e ∈ evs, isRemoteCmd e = false) :
    ∀ c : Comp,
      ((targetScopeBody env ⟨ci, 0, evs⟩).2.events.any (isCpOf c) =
       (targetScopeBody env ⟨ci, 0, evs⟩).2.events.any (isLitPassOf c)) ∧
      ((targetScopeBody env ⟨ci, 0, evs⟩).2.events.any (isLitFailOf c) = true →
        (targetScopeBody env ⟨ci, 0, evs⟩).1 =
          Except.error (Failure.assertionError (litFailMsg c)) ∧
        (targetScopeBody env ⟨ci, 0, evs⟩).2.events.any (isCpOf c) = false) := by
  intro c
  have hcp : evs.any (isCpOf c) = false := by
    rw [List.any_eq_false]
    intro e he
    simp [isCpOf_eq_false_of_not_remote c e (hpre e he)]
  have hlit : evs.any (isLitPassOf c) = false := by
    rw [List.any_eq_false]
    intro e he
    simp [isLitPassOf_eq_false_of_not_remote c e (hpre e he)]
  have hfl : evs.any (isLitFailOf c) = false := by
    rw [List.any_eq_false]
    intro e he
    simp [isLitFailOf_eq_false_of_not_remote c e (hpre e he)]
  by_cases h1 : (env.remote 0).1 = 0
  · by_cases h2 : (env.remote 1).1 = 0
    · by_cases h3 : (env.remote 2).1 = 0
      · by_cases h4 : (env.remote 3).1 = 0
        · by_cases h5 : (env.remote 4).1 = 0
          · by_cases h6 : (env.remote 5).1 = 0
            · by_cases h7 : (env.remote 6).1 = 0
              · by_cases h8 : (env.remote 7).1 = 0
                · by_cases h9 : (env.remote 8).1 = 0
                  · rw [scopeBody_eval10 env ci evs h1 h2 h3 h4 h5 h6 h7 h8 h9]
                    simp only [List.any_append, hcp, hlit, hfl, Bool.false_or]
                    cases c <;> simp_all [isCpOf, isLitPassOf, isLitFailOf, litFailMsg]
                  · rw [scopeBody_eval9 env ci evs h1 h2 h3 h4 h5 h6 h7 h8 h9]
                    simp only [List.any_append, hcp, hlit, hfl, Bool.false_or]
                    cases c <;> simp_all [isCpOf, isLitPassOf, isLitFailOf, litFailMsg]
                · rw [scopeBody_eval8 env ci evs h1 h2 h3 h4 h5 h6 h7 h8]
                  simp only [List.any_append, hcp, hlit, hfl, Bool.false_or]
                  cases c <;> simp_all [isCpOf, isLitPassOf, isLitFailOf, litFailMsg]
              · rw [scopeBody_eval7 env ci evs h1 h2 h3 h4 h5 h6 h7]
                simp only [List.any_append, hcp, hlit, hfl, Bool.false_or]
                cases c <;> simp_all [isCpOf, isLitPassOf, isLitFailOf, litFailMsg]
            · rw [scopeBody_eval6 env ci evs h1 h2 h3 h4 h5 h6]
              simp only [List.any_append, hcp, hlit, hfl, Bool.false_or]
              cases c <;> simp_all [isCpOf, isLitPassOf, isLitFailOf, litFailMsg]
          · rw [scopeBody_eval5 env ci evs h1 h2 h3 h4 h5]
            simp only [List.any_append, hcp, hlit, hfl, Bool.false_or]
            cases c <;> simp_all [isCpOf, isLitPassOf, isLitFailOf, litFailMsg]
        · rw [scopeBody_eval4 env ci evs h1 h2 h3 h4]
          simp only [List.any_append, hcp, hlit, hfl, Bool.false_or]
          cases c <;> simp_all [isCpOf, isLitPassOf, isLitFailOf, litFailMsg]
      · rw [scopeBody_eval3 env ci evs h1 h2 h3]
        simp only [List.any_append, hcp, hlit, hfl, Bool.false_or]
        cases c <;> simp_all [isCpOf, isLitPassOf, isLitFailOf, litFailMsg]
    · rw [scopeBody_eval2 env ci evs h1 h2]
      simp only [List.any_append, hcp, hlit, hfl, Bool.false_or]
      cases c <;> simp_all [isCpOf, isLitPassOf, isLitFailOf, litFailMsg]
  · rw [scopeBody_eval1 env ci evs h1]
    simp only [List.any_append, hcp, hlit, hfl, Bool.false_or]
    cases c <;> simp_all [isCpOf, isLitPassOf, isLitFailOf, litFailMsg]

/-- An event that is not a remote command touches no component. -/
theorem touchesComp_eq_false_of_not_remote (c : Comp) (e : Event)
    (h : isRemoteCmd e = false) : touchesComp c e = false := by
  cases e <;> simp_all [isRemoteCmd, touchesComp]

/-- The world of the C6 witness: the fourth remote command (the lld lit
run) exits 1, everything before it succeeds. -/
def envW6 : Env :=
  { envBase with remote := fun k => if k = 3 then (1, "FAIL: shtest example") else (0, "ok") }

/-- C6 at a concrete input: the lld lit run exits 1, so the lld copy is
never attempted and the body fails with the lld lit assertion. -/
theorem C6_copy_iff_lit_passed_witness :
    ((targetScopeBody envW6 ⟨0, 0, []⟩).2.events.any (isCpOf Comp.lld) =
     (targetScopeBody envW6 ⟨0, 0, []⟩).2.events.any (isLitPassOf Comp.lld)) ∧
    ((targetScopeBody envW6 ⟨0, 0, []⟩).2.events.any (isLitFailOf Comp.lld) = true →
      (targetScopeBody envW6 ⟨0, 0, []⟩).1 =
        Except.error (Failure.assertionError (litFailMsg Comp.lld)) ∧
      (targetScopeBody envW6 ⟨0, 0, []⟩).2.events.any (isCpOf Comp.lld) = false) :=
  C6_copy_iff_lit_passed envW6 0 [] (by simp) Comp.lld

/-- C7: mount succeeded, the first component's (lld) lit run exited zero and
its result copy exited non-zero: the workflow fails with the artifact-transfer
assertion (a different failure value than the lld test-run failure), and no
test-harness run or copy of the second (llvm) or third (clang) component is
ever attempted. -/
theorem C7_first_copy_failure_stops_rest (env : Env) (ci : Nat) (evs : List Event)
    (hpre : ∀ e ∈ evs, isRemoteCmd e = false)
    (h1 : (env.remote 0).1 = 0) (h2 : (env.remote 1).1 = 0) (h3 : (env.remote 2).1 = 0)
    (h4 : (env.remote 3).1 = 0) (h5 : (env.remote 4).1 ≠ 0) :
    (targetScopeBody env ⟨ci, 0, evs⟩).1 =
        Except.error (Failure.assertionError "Failed to copy LLD lit results back to host") ∧
    Failure.assertionError "Failed to copy LLD lit results back to host" ≠
        Failure.assertionError "llvm-lit failed on target for lld — see log above" ∧
    (targetScopeBody env ⟨ci, 0, evs⟩).2.events.any (touchesComp Comp.llvm) = false ∧
    (targetScopeBody env ⟨ci, 0, evs⟩).2.events.any (touchesComp Comp.clang) = false := by
  have hev : ∀ c : Comp, evs.any (touchesComp c) = false := by
    intro c
    rw [List.any_eq_false]
    intro e he
    simp [touchesComp_eq_false_of_not_remote c e (hpre e he)]
  rw [scopeBody_eval5 env ci evs h1 h2 h3 h4 h5]
  refine ⟨rfl, by decide, ?_, ?_⟩ <;> simp [List.any_append, hev, touchesComp]

/-- The world of the C7 witness: the fifth remote command (the lld result
copy) exits 1, everything else exits 0. -/
def envW7 : Env :=
  { envBase with remote := fun k => if k = 4 then (1, "cp: cannot stat") else (0, "ok") }

/-- C7 at a concrete input. -/
theorem C7_first_copy_failure_stops_rest_witness :
    (targetScopeBody envW7 ⟨0, 0, []⟩).1 =
        Except.error (Failure.assertionError "Failed to copy LLD lit results back to host") ∧
    Failure.assertionError "Failed to copy LLD lit results back to host" ≠
        Failure.assertionError "llvm-lit failed on target for lld — see log above" ∧
    (targetScopeBody envW7 ⟨0, 0, []⟩).2.events.any (touchesComp Comp.llvm) = false ∧
    (targetScopeBody envW7 ⟨0, 0, []⟩).2.events.any (touchesComp Comp.clang) = false :=
  C7_first_copy_failure_stops_rest envW7 0 [] (by simp)
    (by decide) (by decide) (by decide) (by decide) (by decide)

/-- On every path, the scope body only appends non-lifecycle events to the
trace: it acquires and releases nothing itself. -/
theorem scopeBody_delta (env : Env) (ci : Nat) (evs : List Event) :
    ∃ d, (targetScopeBody env ⟨ci, 0, evs⟩).2.events = evs ++ d ∧
      d.countP isLifecycle = 0 := by
  by_cases h1 : (env.remote 0).1 = 0
  · by_cases h2 : (env.remote 1).1 = 0
    · by_cases h3 : (env.remote 2).1 = 0
      · by_cases h4 : (env.remote 3).1 = 0
        · by_cases h5 : (env.remote 4).1 = 0
          · by_cases h6 : (env.remote 5).1 = 0
            · by_cases h7 : (env.remote 6).1 = 0
              · by_cases h8 : (env.remote 7).1 = 0
                · by_cases h9 : (env.remote 8).1 = 0
                  · rw [scopeBody_eval10 env ci evs h1 h2 h3 h4 h5 h6 h7 h8 h9]
                    exact ⟨_, rfl, by simp [isLifecycle]⟩
                  · rw [scopeBody_eval9 env ci evs h1 h2 h3 h4 h5 h6 h7 h8 h9]
                    exact ⟨_, rfl, by simp [isLifecycle]⟩
                · rw [scopeBody_eval8 env ci evs h1 h2 h3 h4 h5 h6 h7 h8]
                  exact ⟨_, rfl, by simp [isLifecycle]⟩
              · rw [scopeBody_eval7 env ci evs h1 h2 h3 h4 h5 h6 h7]
                exact ⟨_, rfl, by simp [isLifecycle]⟩
            · rw [scopeBody_eval6 env ci evs h1 h2 h3 h4 h5 h6]
              exact ⟨_, rfl, by simp [isLifecycle]⟩
          · rw [scopeBody_eval5 env ci evs h1 h2 h3 h4 h5]
            exact ⟨_, rfl, by simp [isLifecycle]⟩
        · rw [scopeBody_eval4 env ci evs h1 h2 h3 h4]
          exact ⟨_, rfl, by simp [isLifecycle]⟩
      · rw [scopeBody_eval3 env ci evs h1 h2 h3]
        exact ⟨_, rfl, by simp [isLifecycle]⟩
    · rw [scopeBody_eval2 env ci evs h1 h2]
      exact ⟨_, rfl, by simp [isLifecycle]⟩
  · rw [scopeBody_eval1 env ci evs h1]
    exact ⟨_, rfl, by simp [isLifecycle]⟩

/-- C2: the resource scope releases exactly what it acquired, exactly once,
in reverse acquisition order, on every exit path.  If the VM launch fails
nothing is acquired or released; if the VM is acquired but the export fails,
the VM alone is released exactly once before the failure propagates; if both
are acquired, the trace ends with the export released, then the VM, after a
body that acquires and releases nothing, whatever the body's outcome.  The
release counts are 1 for each acquired resource and 0 otherwise, so
double-release never occurs. -/
theorem C2_resource_scope_releases_each_once (env : Env) (ci : Nat) (evs : List Event)
    (hs : evs.countP isLifecycle = 0) :
    (env.qemuLaunchOk = false →
        (resourceScope env ⟨ci, 0, evs⟩).2.events = evs ∧
        (resourceScope env ⟨ci, 0, evs⟩).1 = Except.error (Failure.exception "runqemu failed")) ∧
    (env.qemuLaunchOk = true → env.unfsOk = false →
        (resourceScope env ⟨ci, 0, evs⟩).2.events =
            evs ++ [Event.acquireQemu, Event.releaseQemu] ∧
        (resourceScope env ⟨ci, 0, evs⟩).1 =
            Except.error (Failure.exception "unfs_server failed")) ∧
    (env.qemuLaunchOk = true → env.unfsOk = true →
        ∃ mid, (resourceScope env ⟨ci, 0, evs⟩).2.events =
            evs ++ [Event.acquireQemu, Event.acquireNfs] ++ mid ++
              [Event.releaseNfs, Event.releaseQemu] ∧
          mid.countP isLifecycle = 0) ∧
    (resourceScope env ⟨ci, 0, evs⟩).2.events.countP
        (fun e => decide (e = Event.releaseQemu)) =
      (if env.qemuLaunchOk then 1 else 0) ∧
    (resourceScope env ⟨ci, 0, evs⟩).2.events.countP
        (fun e => decide (e = Event.releaseNfs)) =
      (if env.qemuLaunchOk && env.unfsOk then 1 else 0) := by
  have hq0 : evs.countP (fun e => decide (e = Event.releaseQemu)) = 0 := by
    refine Nat.le_zero.mp (le_of_le_of_eq (List.countP_mono_left ?_) hs)
    intro x hx hp
    simp only [decide_eq_true_eq] at hp
    subst hp
    rfl
  have hn0 : evs.countP (fun e => decide (e = Event.releaseNfs)) = 0 := by
    refine Nat.le_zero.mp (le_of_le_of_eq (List.countP_mono_left ?_) hs)
    intro x hx hp
    simp only [decide_eq_true_eq] at hp
    subst hp
    rfl
  cases hq : env.qemuLaunchOk with
  | false =>
    simp [resourceScope, emit, hq, hq0, hn0]
  | true =>
    cases hu : env.unfsOk with
    | false =>
      simp [resourceScope, emit, hq, hu, List.countP_append, hq0, hn0]
    | true =>
      obtain ⟨d, hd, hdc⟩ :=
        scopeBody_delta env ci (evs ++ [Event.acquireQemu, Event.acquireNfs])
      have hdq : d.countP (fun e => decide (e = Event.releaseQemu)) = 0 := by
        refine Nat.le_zero.mp (le_of_le_of_eq (List.countP_mono_left ?_) hdc)
        intro x hx hp
        simp only [decide_eq_true_eq] at hp
        subst hp
        rfl
      have hdn : d.countP (fun e => decide (e = Event.releaseNfs)) = 0 := by
        refine Nat.le_zero.mp (le_of_le_of_eq (List.countP_mono_left ?_) hdc)
        intro x hx hp
        simp only [decide_eq_true_eq] at hp
        subst hp
        rfl
      refine ⟨by simp [hq], by simp [hu], ?_, ?_, ?_⟩
      · refine fun _ _ => ⟨d, ?_, hdc⟩
        simp only [resourceScope, emit, hq, hu]
        simp only [Bool.true_eq_false, if_false]
        simp only [List.append_assoc, List.singleton_append]
        rw [hd]
        simp
      · simp only [resourceScope, emit, hq, hu]
        simp only [Bool.true_eq_false, if_false]
        simp only [List.append_assoc, List.singleton_append]
        rw [hd]
        simp [List.countP_append, hq0, hdq, hq]
      · simp only [resourceScope, emit, hq, hu]
        simp only [Bool.true_eq_false, if_false]
        simp only [List.append_assoc, List.singleton_append]
        rw [hd]
        simp [List.countP_append, hn0, hdn, hu]

/-- C2 at a concrete input: both resources acquired, the whole body succeeds. -/
theorem C2_resource_scope_releases_each_once_witness :
    (envBase.qemuLaunchOk = false →
        (resourceScope envBase ⟨0, 0, []⟩).2.events = [] ∧
        (resourceScope envBase ⟨0, 0, []⟩).1 = Except.error (Failure.exception "runqemu failed")) ∧
    (envBase.qemuLaunchOk = true → envBase.unfsOk = false →
        (resourceScope envBase ⟨0, 0, []⟩).2.events =
            [] ++ [Event.acquireQemu, Event.releaseQemu] ∧
        (resourceScope envBase ⟨0, 0, []⟩).1 =
            Except.error (Failure.exception "unfs_server failed")) ∧
    (envBase.qemuLaunchOk = true → envBase.unfsOk = true →
        ∃ mid, (resourceScope envBase ⟨0, 0, []⟩).2.events =
            [] ++ [Event.acquireQemu, Event.acquireNfs] ++ mid ++
              [Event.releaseNfs, Event.releaseQemu] ∧
          mid.countP isLifecycle = 0) ∧
    (resourceScope envBase ⟨0, 0, []⟩).2.events.countP
        (fun e => decide (e = Event.releaseQemu)) =
      (if envBase.qemuLaunchOk then 1 else 0) ∧
    (resourceScope envBase ⟨0, 0, []⟩).2.events.countP
        (fun e => decide (e = Event.releaseNfs)) =
      (if envBase.qemuLaunchOk && envBase.unfsOk then 1 else 0) :=
  C2_resource_scope_releases_each_once envBase 0 [] (by simp)

/-- The world of the C8 counterexample: the three native steps take exactly
10, 20 and 30 seconds, but one extra second elapses between the last step's
end reading and the independent total reading. -/
def envC8 : Env :=
  { envBase with clock := fun i => [(0:ℚ), 0, 10, 10, 30, 30, 60, 61].getD i 0 }

/-- C8 counterexample: a run of the native workflow whose three reported
step durations are exactly 10, 20 and 30 seconds and which succeeds, yet
whose reported total is 61 seconds, not 60: the total is measured by an
independent pair of clock readings, not summed from the step durations. -/
theorem C8_counterexample_total_61 :
    (test_native_llvm_clang_lld_lit_suites envC8 initSt).1 =
      Except.ok ⟨10, 20, 30, 61⟩ ∧ (61 : Int) ≠ 60 := by
  refine ⟨?_, by decide⟩
  have hb0 : envC8.bitbakeOk (bbCheckCmd "llvm-native" "check_llvm") = true := rfl
  have hb1 : envC8.bitbakeOk (bbCheckCmd "clang-native" "check_clang") = true := rfl
  have hb2 : envC8.bitbakeOk (bbCheckCmd "lld-native" "check_lld") = true := rfl
  simp only [test_native_llvm_clang_lld_lit_suites, emit, readClock, initSt]
  simp only [run_native_check_task_ok _ _ _ _ hb0, run_native_check_task_ok _ _ _ _ hb1,
    run_native_check_task_ok _ _ _ _ hb2]
  norm_num [envC8, envBase, pyInt]

/-- C8 amended: if the three native steps succeed, each step's clock bracket
spans exactly 10, 20 and 30 whole seconds respectively, and the clock does
not advance outside the steps, the workflow succeeds with reported durations
10, 20, 30 and reported total 60 seconds. -/
theorem C8_amended_total_60 (env : Env)
    (hb0 : env.bitbakeOk (bbCheckCmd "llvm-native" "check_llvm") = true)
    (hb1 : env.bitbakeOk (bbCheckCmd "clang-native" "check_clang") = true)
    (hb2 : env.bitbakeOk (bbCheckCmd "lld-native" "check_lld") = true)
    (t1 : env.clock 1 = env.clock 0)
    (t2 : env.clock 2 = env.clock 1 + 10)
    (t3 : env.clock 3 = env.clock 2)
    (t4 : env.clock 4 = env.clock 3 + 20)
    (t5 : env.clock 5 = env.clock 4)
    (t6 : env.clock 6 = env.clock 5 + 30)
    (t7 : env.clock 7 = env.clock 6) :
    (test_native_llvm_clang_lld_lit_suites env initSt).1 =
      Except.ok ⟨10, 20, 30, 60⟩ := by
  simp only [test_native_llvm_clang_lld_lit_suites, emit, readClock, initSt]
  simp only [run_native_check_task_ok _ _ _ _ hb0, run_native_check_task_ok _ _ _ _ hb1,
    run_native_check_task_ok _ _ _ _ hb2]
  norm_num [t7, t6, t5, t4, t3, t2, t1, pyInt]
  have h60 : env.clock 0 + 10 + 20 + 30 - env.clock 0 = (60 : ℚ) := by ring
  rw [h60, if_pos (by linarith : env.clock 0 ≤ env.clock 0 + 10 + 20 + 30)]
  norm_num

/-- The world of the C8 witness: exact 10/20/30-second steps, no clock
movement outside them. -/
def envW8 : Env :=
  { envBase with clock := fun i => [(0:ℚ), 0, 10, 10, 30, 30, 60, 60].getD i 0 }

/-- C8 amended, at a concrete input. -/
theorem C8_amended_total_60_witness :
    (test_native_llvm_clang_lld_lit_suites envW8 initSt).1 =
      Except.ok ⟨10, 20, 30, 60⟩ :=
  C8_amended_total_60 envW8 rfl rfl rfl (by norm_num [envW8, envBase])
    (by norm_num [envW8, envBase]) (by norm_num [envW8, envBase])
    (by norm_num [envW8, envBase]) (by norm_num [envW8, envBase])
    (by norm_num [envW8, envBase]) (by norm_num [envW8, envBase])

/-- The world of the C9 divergence run: the ninth remote command (the clang
result copy) exits 1, everything else succeeds. -/
def envC9 : Env :=
  { envBase with remote := fun k => if k = 8 then (1, "cp: cannot stat") else (0, "ok") }

/-- C9 divergence: on the run where every build, the mount and all three lit
runs succeed but the clang result copy exits 1, the failing step is clang's
copy (the `RCmd.cp Comp.clang` command, with exit status 1, is in the
trace), yet the raised assertion message is the copy-paste slip
`Failed to copy LLVM lit results back to host`, which does not name clang. -/
theorem C9_clang_copy_failure_message_names_llvm :
    (test_target_llvm_clang_lld_builds envC9 initSt).1 =
      Except.error (Failure.assertionError "Failed to copy LLVM lit results back to host") ∧
    Event.remoteCmd (RCmd.cp Comp.clang) (cpCmd envC9.tmpdir "clang") (envC9.remote 8).1 none ∈
      (test_target_llvm_clang_lld_builds envC9 initSt).2.events := by
  have hb0 : envC9.bitbakeOk "llvm" = true := rfl
  have hb1 : envC9.bitbakeOk "clang" = true := rfl
  have hb2 : envC9.bitbakeOk "lld" = true := rfl
  have hb3 : envC9.bitbakeOk "core-image-minimal" = true := rfl
  have hq : envC9.qemuLaunchOk = true := rfl
  have hu : envC9.unfsOk = true := rfl
  simp only [test_target_llvm_clang_lld_builds, emit, readClock, initSt]
  simp only [run_target_build_ok _ _ _ hb0, run_target_build_ok _ _ _ hb1,
    run_target_build_ok _ _ _ hb2, run_target_build_ok _ _ _ hb3]
  simp only [resourceScope, emit, hq, hu, Bool.true_eq_false, if_false]
  rw [scopeBody_eval9 envC9 _ _ (by decide) (by decide) (by decide) (by decide) (by decide)
    (by decide) (by decide) (by decide) (by decide)]
  refine ⟨rfl, ?_⟩
  simp

def envTot : Env :=
  { envBase with clock := fun i => [(0:ℚ), 0, 10, 10, 30, 30, 60, 62].getD i 0 }

/-- C10: every reported duration is the truncation (floor, on the
nonnegative differences a monotone clock yields) of the difference of the
pair of clock readings bracketing it; in both workflows the reported total
is the truncated difference of its own independent pair of readings (the
first reading of the run and the one taken after the last step), not the
sum of the per-step durations; and on a concrete run the reported total
(62) differs from that sum (60). -/
theorem C10_total_is_independent_truncated_reading :
    (∀ q : ℚ, 0 ≤ q → pyInt q = ⌊q⌋) ∧
    (∀ env : Env,
      env.bitbakeOk (bbCheckCmd "llvm-native" "check_llvm") = true →
      env.bitbakeOk (bbCheckCmd "clang-native" "check_clang") = true →
      env.bitbakeOk (bbCheckCmd "lld-native" "check_lld") = true →
      (test_native_llvm_clang_lld_lit_suites env initSt).1 =
        Except.ok ⟨pyInt (env.clock 2 - env.clock 1), pyInt (env.clock 4 - env.clock 3),
          pyInt (env.clock 6 - env.clock 5), pyInt (env.clock 7 - env.clock 0)⟩) ∧
    (∀ env : Env,
      env.bitbakeOk "llvm" = true → env.bitbakeOk "clang" = true →
      env.bitbakeOk "lld" = true → env.bitbakeOk "core-image-minimal" = true →
      env.qemuLaunchOk = true → env.unfsOk = true →
      (∀ k : Nat, (env.remote k).1 = 0) →
      (test_target_llvm_clang_lld_builds env initSt).1 =
        Except.ok ⟨pyInt (env.clock 2 - env.clock 1), pyInt (env.clock 4 - env.clock 3),
          pyInt (env.clock 6 - env.clock 5), pyInt (env.clock 8 - env.clock 7),
          pyInt (env.clock 9 - env.clock 0)⟩) ∧
    ((test_native_llvm_clang_lld_lit_suites envTot initSt).1 =
        Except.ok ⟨10, 20, 30, 62⟩ ∧
      (10 : Int) + 20 + 30 ≠ 62) := by
  refine ⟨?_, ?_, ?_, ?_, by decide⟩
  · intro q hq
    simp [pyInt, hq]
  · intro env hb0 hb1 hb2
    simp only [test_native_llvm_clang_lld_lit_suites, emit, readClock, initSt]
    simp only [run_native_check_task_ok _ _ _ _ hb0, run_native_check_task_ok _ _ _ _ hb1,
      run_native_check_task_ok _ _ _ _ hb2]
  · intro env hb0 hb1 hb2 hb3 hq hu hr
    simp only [test_target_llvm_clang_lld_builds, emit, readClock, initSt]
    simp only [run_target_build_ok _ _ _ hb0, run_target_build_ok _ _ _ hb1,
      run_target_build_ok _ _ _ hb2, run_target_build_ok _ _ _ hb3]
    simp only [resourceScope, emit, hq, hu, Bool.true_eq_false, if_false]
    rw [scopeBody_eval10 env _ _ (hr 0) (hr 1) (hr 2) (hr 3) (hr 4) (hr 5) (hr 6) (hr 7) (hr 8)]
  · have hb0 : envTot.bitbakeOk (bbCheckCmd "llvm-native" "check_llvm") = true := rfl
    have hb1 : envTot.bitbakeOk (bbCheckCmd "clang-native" "check_clang") = true := rfl
    have hb2 : envTot.bitbakeOk (bbCheckCmd "lld-native" "check_lld") = true := rfl
    simp only [test_native_llvm_clang_lld_lit_suites, emit, readClock, initSt]
    simp only [run_native_check_task_ok _ _ _ _ hb0, run_native_check_task_ok _ _ _ _ hb1,
      run_native_check_task_ok _ _ _ _ hb2]
    norm_num [envTot, envBase, pyInt]
